import Mathlib

/-!
# mio: user-profile frame codec and battery-check session handlers

A shallow embedding of `consts.go` (the `UserInfo` record, its validation
tags and `UserInfo.Pack`) and of `main.go` (the peripheral handlers
`onPeriphDiscovered`, `getServiceById`, `checkBatteryLevel`,
`onPeriphConnected`, `onPeriphDisconnected`).

Conventions.
* A Go `byte` is a natural number below 256; conversions `byte(x)` of an
  `int` are written with an explicit remainder modulo 256.
* A Go slice is a `List`; a nil slice is the empty list.
* Handlers are functions on an explicit `World` that records, in order, every
  transport operation and log line, and whether the channel `done` is closed.
-/

namespace Mio

/-! ## consts.go : the record codec -/

/-- The conversion `byte(i)` of a Go `int`: the low eight bits. -/
def byteOfInt (i : Int) : Nat := (i % 256).toNat

/-- The part of a `time.Time` that `Pack` reads: the results of `Year()`,
`Month()` and `Day()`. Go guarantees a month in 1..12 and a day in 1..31. -/
structure Time where
  year : Int
  month : Nat
  day : Nat
  month_range : 1 ≤ month ∧ month ≤ 12
  day_range : 1 ≤ day ∧ day ≤ 31

def Time.Year (t : Time) : Int := t.year
def Time.Month (t : Time) : Int := t.month
def Time.Day (t : Time) : Int := t.day

/-- Record `UserInfo` of consts.go; every field but `Birthday` is a `byte`. -/
structure UserInfo where
  Gender : Nat
  UnitType : Nat
  HRDisplayType : Nat
  DisplayOrientation : Nat
  WODisplayMode : Nat
  ADLGoalCal : Nat
  WORecording : Nat
  HRAutoAdj : Nat
  Birthday : Time
  BodyWeight : Nat
  BodyHeight : Nat
  ResetHR : Nat
  MaxHR : Nat

/-- One item of a `validate:"..."` struct tag. -/
inductive Tag where
  | min (n : Nat)
  | max (n : Nat)
  | ltfield (other : String)
  deriving DecidableEq, Repr

/-- Name of a tag item, as the validator reports it. -/
def Tag.name : Tag → String
  | .min _ => "min"
  | .max _ => "max"
  | .ltfield _ => "ltfield"

/-- The `validate` struct tags of `UserInfo`, in declaration order.
`Birthday` carries no tag and is absent. -/
def UserInfo.tags : List (String × List Tag) :=
  [ ("Gender", [.min 0, .max 1]),
    ("UnitType", [.min 0, .max 1]),
    ("HRDisplayType", [.min 0, .max 1]),
    ("DisplayOrientation", [.min 0, .max 1]),
    ("WODisplayMode", [.min 0, .max 1]),
    ("ADLGoalCal", [.min 0, .max 1]),
    ("WORecording", [.min 0, .max 1]),
    ("HRAutoAdj", [.min 0, .max 1]),
    ("BodyWeight", [.min 20, .max 200]),
    ("BodyHeight", [.min 69, .max 231]),
    ("ResetHR", [.min 30, .max 140, .ltfield "MaxHR"]),
    ("MaxHR", [.min 80, .max 220]) ]

/-- Lookup of a `byte` field by name (what the validator does by reflection). -/
def UserInfo.field (u : UserInfo) : String → Option Nat
  | "Gender" => some u.Gender
  | "UnitType" => some u.UnitType
  | "HRDisplayType" => some u.HRDisplayType
  | "DisplayOrientation" => some u.DisplayOrientation
  | "WODisplayMode" => some u.WODisplayMode
  | "ADLGoalCal" => some u.ADLGoalCal
  | "WORecording" => some u.WORecording
  | "HRAutoAdj" => some u.HRAutoAdj
  | "BodyWeight" => some u.BodyWeight
  | "BodyHeight" => some u.BodyHeight
  | "ResetHR" => some u.ResetHR
  | "MaxHR" => some u.MaxHR
  | _ => none

/-- Whether value `v` passes one tag item. For unsigned integers the
validator package (gopkg.in/go-playground/validator.v8) reads `min=n` as
`v >= n`, `max=n` as `v <= n` and `ltfield=F` as `v < u.F`; `ltfield` on a
field that does not exist fails. -/
def Tag.passes (u : UserInfo) (v : Nat) : Tag → Bool
  | .min n => decide (n ≤ v)
  | .max n => decide (v ≤ n)
  | .ltfield other =>
    match u.field other with
    | some w => decide (v < w)
    | none => false

/-- One entry of the validator's `ValidationErrors`: the field and the tag
item that failed. -/
structure FieldError where
  Field : String
  Tag : String
  deriving DecidableEq, Repr

/-- Validation of one field: the tag items are tried in order and the first
failing one is reported; the rest of that field's items are skipped. -/
def validateField (u : UserInfo) (name : String) (v : Nat) : List Tag → Option FieldError
  | [] => none
  | t :: ts => if t.passes u v then validateField u name v ts else some ⟨name, t.name⟩

/-- The call `validate.Struct(u)`: every tagged field is validated and all
field errors are collected (empty list: the `nil` error). -/
def validateStruct (u : UserInfo) : List FieldError :=
  UserInfo.tags.filterMap fun ft =>
    match u.field ft.1 with
    | some v => validateField u ft.1 v ft.2
    | none => none

/-! userinfo bitmask values: `1 << iota` -/

def FLAG_GENDER : Nat := 1 <<< 0
def FLAG_UNIT_TYPE : Nat := 1 <<< 1
def FLAG_DISPLAY_TYPE_HR : Nat := 1 <<< 2
def FLAG_DISPLAY_ORIENTATION : Nat := 1 <<< 3
def FLAG_DISPLAY_MODE_WO : Nat := 1 <<< 4
def FLAG_GOAL_ADL : Nat := 1 <<< 5
def FLAG_RECORDING_WO : Nat := 1 <<< 6
def FLAG_ADJ_HR : Nat := 1 <<< 7

/-- What a call of `Pack` produces: the lines it logs (each the validator's
error list printed after "Validation error") and the returned `*[]byte`
(`none` is the nil pointer). -/
structure PackOut where
  logged : List (List FieldError)
  ret : Option (List Nat)
  deriving DecidableEq, Repr

/-- The byte `flags` that `Pack` builds with its eight `if` statements. -/
def UserInfo.flags (u : UserInfo) : Nat :=
  let flags := 0
  let flags := if u.Gender = 1 then flags ||| FLAG_GENDER else flags
  let flags := if u.UnitType = 1 then flags ||| FLAG_UNIT_TYPE else flags
  let flags := if u.HRDisplayType = 1 then flags ||| FLAG_DISPLAY_TYPE_HR else flags
  let flags := if u.DisplayOrientation = 1 then flags ||| FLAG_DISPLAY_ORIENTATION else flags
  let flags := if u.WODisplayMode = 1 then flags ||| FLAG_DISPLAY_MODE_WO else flags
  let flags := if u.ADLGoalCal = 1 then flags ||| FLAG_GOAL_ADL else flags
  let flags := if u.WORecording = 1 then flags ||| FLAG_RECORDING_WO else flags
  let flags := if u.HRAutoAdj = 1 then flags ||| FLAG_ADJ_HR else flags
  flags

/-- Method `(u *UserInfo) Pack() *[]byte`, with `validate` the instance
built by `initValidator`. -/
def UserInfo.Pack (u : UserInfo) : PackOut :=
  let errs := validateStruct u
  if errs ≠ [] then
    ⟨[errs], none⟩
  else
    let data := List.replicate 10 0
    let flags := u.flags
    let data := data.set 0 8
    let data := data.set 1 0
    let data := data.set 2 flags
    let data := data.set 3 (byteOfInt u.Birthday.Day)
    let data := data.set 4 (byteOfInt u.Birthday.Month)
    let data := data.set 5 (byteOfInt u.Birthday.Year)
    let data := data.set 6 u.BodyWeight
    let data := data.set 7 u.BodyHeight
    let data := data.set 8 u.ResetHR
    let data := data.set 9 u.MaxHR
    ⟨[], some data⟩

/-- The field invariants of the record: what the struct tags demand. -/
def UserInfo.Valid (u : UserInfo) : Prop :=
  u.Gender ≤ 1 ∧ u.UnitType ≤ 1 ∧ u.HRDisplayType ≤ 1 ∧ u.DisplayOrientation ≤ 1 ∧
  u.WODisplayMode ≤ 1 ∧ u.ADLGoalCal ≤ 1 ∧ u.WORecording ≤ 1 ∧ u.HRAutoAdj ≤ 1 ∧
  (20 ≤ u.BodyWeight ∧ u.BodyWeight ≤ 200) ∧ (69 ≤ u.BodyHeight ∧ u.BodyHeight ≤ 231) ∧
  (80 ≤ u.MaxHR ∧ u.MaxHR ≤ 220) ∧ (30 ≤ u.ResetHR ∧ u.ResetHR ≤ 140) ∧ u.ResetHR < u.MaxHR

instance (u : UserInfo) : Decidable u.Valid := by
  unfold UserInfo.Valid; infer_instance

/-- Two records agree on every field except, possibly, the year of birth. -/
def UserInfo.agreeExceptYear (u v : UserInfo) : Prop :=
  u.Gender = v.Gender ∧ u.UnitType = v.UnitType ∧ u.HRDisplayType = v.HRDisplayType ∧
  u.DisplayOrientation = v.DisplayOrientation ∧ u.WODisplayMode = v.WODisplayMode ∧
  u.ADLGoalCal = v.ADLGoalCal ∧ u.WORecording = v.WORecording ∧ u.HRAutoAdj = v.HRAutoAdj ∧
  u.Birthday.day = v.Birthday.day ∧ u.Birthday.month = v.Birthday.month ∧
  u.BodyWeight = v.BodyWeight ∧ u.BodyHeight = v.BodyHeight ∧
  u.ResetHR = v.ResetHR ∧ u.MaxHR = v.MaxHR

instance (u v : UserInfo) : Decidable (u.agreeExceptYear v) := by
  unfold UserInfo.agreeExceptYear; infer_instance

/-- A sample record: born 17 May 1990. -/
def sampleUser : UserInfo :=
  { Gender := 1, UnitType := 0, HRDisplayType := 1, DisplayOrientation := 0,
    WODisplayMode := 0, ADLGoalCal := 1, WORecording := 0, HRAutoAdj := 1,
    Birthday := ⟨1990, 5, 17, by decide, by decide⟩,
    BodyWeight := 75, BodyHeight := 180, ResetHR := 60, MaxHR := 190 }

/-- The sample record with the year of birth moved by 256 years. -/
def laterUser : UserInfo :=
  { sampleUser with Birthday := ⟨2246, 5, 17, by decide, by decide⟩ }

/-- The sample record with a body weight of 250, above the allowed 200. -/
def heavyUser : UserInfo := { sampleUser with BodyWeight := 250 }

/-- The sample record with a resting heart rate of 100 and a maximal heart
rate of 90: both in range, but not in order. -/
def fastUser : UserInfo := { sampleUser with ResetHR := 100, MaxHR := 90 }

/-! ## main.go : the session handlers -/

/-- Type `Gid`: a 16-bit identifier. -/
abbrev Gid := Nat

def SERVICE_BATTERY : Gid := 0x180F
def CHAR_BATTERY : Gid := 0x2A19

/-- Method `asUUID` of `Gid`: the one-element list with the 16-bit UUID. -/
def Gid.asUUID (i : Gid) : List Nat := [i % 65536]

/-- Property bits of package gatt (github.com/paypal/gatt): `CharNotify`. -/
def CharNotify : Nat := 0x10

/-- Property bits of package gatt: `CharIndicate`. -/
def CharIndicate : Nat := 0x20

/-- A discovered `*gatt.Service`, known by its UUID. -/
structure Service where
  uuid : Nat
  deriving DecidableEq, Repr

/-- A discovered `*gatt.Characteristic`: UUID and the result of `Properties()`. -/
structure Characteristic where
  uuid : Nat
  props : Nat
  deriving DecidableEq, Repr

/-- A `gatt.Peripheral` as the handlers see it: its identifier and name and
what each transport call answers. A Go `error` is an optional message; `none`
is the nil error. -/
structure Peripheral where
  ID : String
  Name : String
  DiscoverServices : List Nat → List Service × Option String
  DiscoverCharacteristics : List Nat → Service → List Characteristic × Option String
  ReadCharacteristic : Characteristic → List Nat × Option String
  SetNotifyValue : Characteristic → Option String

/-- The fields of `gatt.Advertisement` that `onPeriphDiscovered` prints. -/
structure Advertisement where
  LocalName : String
  TxPowerLevel : Int
  ManufacturerData : List Nat
  ServiceData : List (Nat × List Nat)

/-- The lines the handlers print, one constructor per print statement. -/
inductive LogLine where
  | deviceFound (name : Option String)
  | localName (s : String)
  | txPowerLevel (n : Int)
  | manufacturerData (bs : List Nat)
  | serviceData (sd : List (Nat × List Nat))
  | batteryFound (uuid : Nat)
  | readError (err : String)
  | batteryLevel (pct : Nat)
  | connectionOk
  | disconnected
  deriving DecidableEq, Repr

/-- What a handler does to the outside, in the order it does it: calls of the
transport, lines printed, and a successful `close(done)`. -/
inductive Effect where
  | StopScanning
  | Connect (id : String)
  | CancelConnection (id : String)
  | DiscoverServices (uuids : List Nat)
  | DiscoverCharacteristics (uuids : List Nat) (s : Service)
  | ReadCharacteristic (c : Characteristic)
  | SetNotifyValue (c : Characteristic)
  | closeDone
  | log (line : LogLine)
  deriving DecidableEq, Repr

/-- Whether an effect is a call of the transport. -/
def Effect.isTransport : Effect → Bool
  | .closeDone => false
  | .log _ => false
  | _ => true

/-- The state the handlers share: everything done so far and whether the
channel `done` has been closed. -/
structure World where
  trace : List Effect
  doneClosed : Bool
  deriving DecidableEq, Repr

/-- How a piece of Go code ends: normally with a value, in `log.Fatal`
(the process exits at once, deferred calls do not run), or in a run-time
panic. -/
inductive Result (α : Type) where
  | ok (a : α)
  | fatal (msg : String)
  | panicked (msg : String)
  deriving DecidableEq, Repr

/-- A piece of Go code acting on the world. -/
def Run (α : Type) : Type := World → Result α × World

def Run.pure {α : Type} (a : α) : Run α := fun w => (.ok a, w)

def Run.bind {α β : Type} (m : Run α) (f : α → Run β) : Run β := fun w =>
  match m w with
  | (.ok a, w1) => f a w1
  | (.fatal msg, w1) => (.fatal msg, w1)
  | (.panicked msg, w1) => (.panicked msg, w1)

instance : Monad Run where
  pure := Run.pure
  bind := Run.bind

/-- Record one effect. -/
def emit (e : Effect) : Run Unit := fun w => (.ok (), { w with trace := w.trace ++ [e] })

/-- The call `log.Fatal` / `log.Fatalf`. -/
def logFatal {α : Type} (msg : String) : Run α := fun w => (.fatal msg, w)

/-- The index expression `xs[i]`, which panics out of range. -/
def index {α : Type} (xs : List α) (i : Nat) : Run α := fun w =>
  match xs[i]? with
  | some x => (.ok x, w)
  | none => (.panicked "index out of range", w)

/-- The statement `close(done)`, which panics on a closed channel. -/
def closeDone : Run Unit := fun w =>
  if w.doneClosed then (.panicked "close of closed channel", w)
  else (.ok (), { trace := w.trace ++ [.closeDone], doneClosed := true })

/-- The statement `defer d` at the head of a function with body `body`: `d`
runs when the body returns or panics, not when the process exits. -/
def withDefer {α : Type} (d : Run Unit) (body : Run α) : Run α := fun w =>
  match body w with
  | (.ok a, w1) =>
    match d w1 with
    | (.ok _, w2) => (.ok a, w2)
    | (.fatal msg, w2) => (.fatal msg, w2)
    | (.panicked msg, w2) => (.panicked msg, w2)
  | (.fatal msg, w1) => (.fatal msg, w1)
  | (.panicked msg, w1) =>
    match d w1 with
    | (.fatal msg2, w2) => (.fatal msg2, w2)
    | (_, w2) => (.panicked msg, w2)

/-- Handler `onPeriphDiscovered`. `ToUpper` stands for `strings.ToUpper` of
the Go library and `baseDeviceId` for the configured identifier. -/
def onPeriphDiscovered (ToUpper : String → String) (baseDeviceId : String)
    (p : Peripheral) (a : Advertisement) (_rssi : Int) : Run Unit :=
  if ToUpper p.ID ≠ ToUpper baseDeviceId then
    pure ()
  else do
    emit .StopScanning
    if p.Name.length > 0 then
      emit (.log (.deviceFound (some p.Name)))
    else
      emit (.log (.deviceFound none))
    emit (.log (.localName a.LocalName))
    emit (.log (.txPowerLevel a.TxPowerLevel))
    emit (.log (.manufacturerData a.ManufacturerData))
    emit (.log (.serviceData a.ServiceData))
    emit (.Connect p.ID)

/-- Function `getServiceById`. -/
def getServiceById (p : Peripheral) (serviceId : Gid) (name : String) : Run Service := do
  emit (.DiscoverServices serviceId.asUUID)
  let r := p.DiscoverServices serviceId.asUUID
  if r.2 ≠ none ∨ r.1.length = 0 then
    logFatal (name ++ " service not found")
  else
    index r.1 0

/-- The notification callback `bnf` that `checkBatteryLevel` registers,
applied to a pushed value `b`. -/
def bnf (b : List Nat) : Run Unit := do
  let v ← index b 0
  emit (.log (.batteryLevel v))

/-- Function `checkBatteryLevel`. -/
def checkBatteryLevel (p : Peripheral) : Run Unit := do
  let serv ← getServiceById p SERVICE_BATTERY "Battery"
  emit (.log (.batteryFound serv.uuid))
  emit (.DiscoverCharacteristics CHAR_BATTERY.asUUID serv)
  let r := p.DiscoverCharacteristics CHAR_BATTERY.asUUID serv
  if r.2 ≠ none ∨ r.1.length = 0 then
    logFatal "Failed to discover battery characteristics, err: %s\n"
  else do
    let btrchr ← index r.1 0
    emit (.ReadCharacteristic btrchr)
    let rd := p.ReadCharacteristic btrchr
    match rd.2 with
    | some err => emit (.log (.readError err))
    | none => pure ()
    let v ← index rd.1 0
    emit (.log (.batteryLevel v))
    if btrchr.props &&& (CharNotify ||| CharIndicate) ≠ 0 then
      emit (.SetNotifyValue btrchr)
      match p.SetNotifyValue btrchr with
      | some _ => logFatal "Failed to subscribe battery characteristic, err: %s\n"
      | none => pure ()
    else
      pure ()
    closeDone

/-- Handler `onPeriphConnected`. -/
def onPeriphConnected (p : Peripheral) : Run Unit := do
  emit (.log .connectionOk)
  withDefer (emit (.CancelConnection p.ID)) (checkBatteryLevel p)

/-- Handler `onPeriphDisconnected`. -/
def onPeriphDisconnected (_p : Peripheral) : Run Unit := do
  emit (.log .disconnected)
  closeDone

/-- An event of the transport for which `main` registers a handler, or a
value pushed to the subscription callback. -/
inductive Event where
  | connected (p : Peripheral)
  | disconnected (p : Peripheral)
  | notified (b : List Nat)

/-- The handler that runs for one event. -/
def handle : Event → Run Unit
  | .connected p => onPeriphConnected p
  | .disconnected p => onPeriphDisconnected p
  | .notified b => bnf b

/-- Events handled one after the other; a fatal exit or a panic ends the
process, so the remaining events are never handled. -/
def deliver : List Event → Run Unit
  | [] => pure ()
  | e :: es => do
    handle e
    deliver es

/-- The world before any handler has run. -/
def World.init : World := { trace := [], doneClosed := false }

/-- A peripheral with the battery service and one battery characteristic
with properties `props`, whose read answers `val` with error `err`. -/
def batteryPeripheral (props : Nat) (val : List Nat) (err : Option String) : Peripheral :=
  { ID := "AA:BB", Name := "MIO",
    DiscoverServices := fun _ => ([⟨0x180F⟩], none),
    DiscoverCharacteristics := fun _ _ => ([⟨0x2A19, props⟩], none),
    ReadCharacteristic := fun _ => (val, err),
    SetNotifyValue := fun _ => none }

/-- The function `strings.ToUpper` of the Go library on strings of ASCII
characters: the letters a..z are mapped to A..Z. (On other letters the
library function also changes case; this one leaves them as they are.) -/
def ToUpperASCII (s : String) : String := String.mk (s.data.map Char.toUpper)

/-- A sample advertisement. -/
def sampleAdvertisement : Advertisement :=
  { LocalName := "MIO", TxPowerLevel := 0, ManufacturerData := [], ServiceData := [] }

/-- A peripheral that advertises the identifier `id`. -/
def peripheralWithID (id : String) : Peripheral :=
  { batteryPeripheral 0x12 [58] none with ID := id }

/-- Service discovery for `serviceId` on `p` fails: an error or an empty list. -/
def serviceMissing (p : Peripheral) (serviceId : Gid) : Prop :=
  (p.DiscoverServices serviceId.asUUID).2 ≠ none ∨ (p.DiscoverServices serviceId.asUUID).1 = []

/-- Discovery of the battery characteristic under service `s` fails: an error
or an empty list. -/
def characteristicMissing (p : Peripheral) (s : Service) : Prop :=
  (p.DiscoverCharacteristics CHAR_BATTERY.asUUID s).2 ≠ none ∨
    (p.DiscoverCharacteristics CHAR_BATTERY.asUUID s).1 = []

/-- A peripheral without battery service. -/
def noServicePeripheral : Peripheral :=
  { batteryPeripheral 0x12 [58] none with DiscoverServices := fun _ => ([], none) }

/-- A peripheral whose battery service has no battery characteristic. -/
def noCharacteristicPeripheral : Peripheral :=
  { batteryPeripheral 0x12 [58] none with
    DiscoverCharacteristics := fun _ _ => ([], some "not found") }

/-- The effects of `checkBatteryLevel` up to and including the one-shot read,
when the service `s` and the characteristic `c` are found. -/
def readSteps (s : Service) (c : Characteristic) (err : Option String) : List Effect :=
  [.DiscoverServices SERVICE_BATTERY.asUUID, .log (.batteryFound s.uuid),
    .DiscoverCharacteristics CHAR_BATTERY.asUUID s, .ReadCharacteristic c] ++
  (match err with
    | some e => [.log (.readError e)]
    | none => [])

/-- Names of the fields that `validate.Struct(u)` reports. -/
def violatedFields (u : UserInfo) : List String :=
  (validateStruct u).map fun e => e.Field

/-- The eight boolean fields in the order of the `FLAG_*` constants. -/
def UserInfo.boolFields (u : UserInfo) : List Nat :=
  [u.Gender, u.UnitType, u.HRDisplayType, u.DisplayOrientation,
   u.WODisplayMode, u.ADLGoalCal, u.WORecording, u.HRAutoAdj]

/-! ### Validation -/

theorem validateField_eq_none (u : UserInfo) (name : String) (v : Nat) (ts : List Tag) :
    validateField u name v ts = none ↔ ∀ t ∈ ts, t.passes u v = true := by
  induction ts with
  | nil => simp [validateField]
  | cons t ts ih =>
    by_cases h : t.passes u v = true <;> simp [validateField, h, ih]

theorem validateField_field (u : UserInfo) (name : String) (v : Nat) (ts : List Tag)
    (e : FieldError) (h : validateField u name v ts = some e) : e.Field = name := by
  induction ts with
  | nil => simp [validateField] at h
  | cons t ts ih =>
    by_cases hp : t.passes u v = true
    · simp only [validateField, hp, if_true] at h
      exact ih h
    · simp only [validateField, hp] at h
      cases h
      rfl

theorem validateStruct_nil_iff (u : UserInfo) : validateStruct u = [] ↔ u.Valid := by
  unfold validateStruct
  rw [List.filterMap_eq_nil_iff]
  simp only [UserInfo.tags, List.forall_mem_cons, UserInfo.field, validateField_eq_none,
    Tag.passes, UserInfo.Valid, decide_eq_true_eq]
  simp only [List.not_mem_nil, false_implies, implies_true, and_true, Nat.zero_le, true_and]
  omega

theorem mem_violatedFields (u : UserInfo) (name : String) :
    name ∈ violatedFields u ↔
      ∃ ts v, (name, ts) ∈ UserInfo.tags ∧ u.field name = some v ∧
        ¬ ∀ t ∈ ts, Tag.passes u v t = true := by
  unfold violatedFields validateStruct
  simp only [List.mem_map, List.mem_filterMap]
  constructor
  · rintro ⟨e, ⟨⟨n, ts⟩, hmem, he⟩, rfl⟩
    cases hv : u.field n with
    | none => simp [hv] at he
    | some v =>
      simp only [hv] at he
      have hf := validateField_field u n v ts e he
      subst hf
      refine ⟨ts, v, hmem, hv, ?_⟩
      rw [← validateField_eq_none u e.Field v ts, he]
      simp
  · rintro ⟨ts, v, hmem, hv, hne⟩
    rw [← validateField_eq_none u name v ts] at hne
    cases he : validateField u name v ts with
    | none => exact absurd he hne
    | some e =>
      exact ⟨e, ⟨(name, ts), hmem, by simp [hv, he]⟩, validateField_field u name v ts e he⟩

/-! ### The frame of a valid record -/

theorem byteOfInt_natCast (n : Nat) (h : n < 256) : byteOfInt (n : Int) = n := by
  unfold byteOfInt
  omega

theorem byteOfInt_lt (i : Int) : byteOfInt i < 256 := by
  unfold byteOfInt
  omega

theorem Pack_of_valid (u : UserInfo) (h : u.Valid) :
    u.Pack = ⟨[], some [8, 0, u.flags, u.Birthday.day, u.Birthday.month,
      byteOfInt u.Birthday.year, u.BodyWeight, u.BodyHeight, u.ResetHR, u.MaxHR]⟩ := by
  have hd := u.Birthday.day_range
  have hm := u.Birthday.month_range
  have e := (validateStruct_nil_iff u).2 h
  simp only [UserInfo.Pack, e, ne_eq, not_true_eq_false, if_false, Time.Day, Time.Month,
    Time.Year]
  rw [byteOfInt_natCast _ (by omega), byteOfInt_natCast _ (by omega)]
  rfl

theorem sampleUser_Pack :
    sampleUser.Pack = ⟨[], some [8, 0, 165, 17, 5, 198, 75, 180, 60, 190]⟩ := by
  decide

theorem Pack_of_not_valid (u : UserInfo) (h : ¬ u.Valid) :
    u.Pack = ⟨[validateStruct u], none⟩ := by
  have e : validateStruct u ≠ [] := fun he => h ((validateStruct_nil_iff u).1 he)
  simp [UserInfo.Pack, e]

theorem flags_eq_sum (u : UserInfo) (h : u.Valid) :
    u.flags = u.Gender * 1 + u.UnitType * 2 + u.HRDisplayType * 4 + u.DisplayOrientation * 8 +
      u.WODisplayMode * 16 + u.ADLGoalCal * 32 + u.WORecording * 64 + u.HRAutoAdj * 128 := by
  obtain ⟨h1, h2, h3, h4, h5, h6, h7, h8, -⟩ := h
  have e1 : u.Gender = 0 ∨ u.Gender = 1 := by omega
  have e2 : u.UnitType = 0 ∨ u.UnitType = 1 := by omega
  have e3 : u.HRDisplayType = 0 ∨ u.HRDisplayType = 1 := by omega
  have e4 : u.DisplayOrientation = 0 ∨ u.DisplayOrientation = 1 := by omega
  have e5 : u.WODisplayMode = 0 ∨ u.WODisplayMode = 1 := by omega
  have e6 : u.ADLGoalCal = 0 ∨ u.ADLGoalCal = 1 := by omega
  have e7 : u.WORecording = 0 ∨ u.WORecording = 1 := by omega
  have e8 : u.HRAutoAdj = 0 ∨ u.HRAutoAdj = 1 := by omega
  unfold UserInfo.flags
  rcases e1 with e1 | e1 <;> rcases e2 with e2 | e2 <;> rcases e3 with e3 | e3 <;>
  rcases e4 with e4 | e4 <;> rcases e5 with e5 | e5 <;> rcases e6 with e6 | e6 <;>
  rcases e7 with e7 | e7 <;> rcases e8 with e8 | e8 <;>
  rw [e1, e2, e3, e4, e5, e6, e7, e8] <;> rfl

theorem bits_of_sum (g t d o w a r j i : Nat) (hg : g < 2) (ht : t < 2) (hd : d < 2)
    (ho : o < 2) (hw : w < 2) (ha : a < 2) (hr : r < 2) (hj : j < 2) (hi : i < 8) :
    (Nat.testBit (g * 1 + t * 2 + d * 4 + o * 8 + w * 16 + a * 32 + r * 64 + j * 128) i = true ↔
      [g, t, d, o, w, a, r, j][i]? = some 1) := by
  rw [Nat.testBit_to_div_mod]
  interval_cases i <;> simp <;> omega

/-- C1: a record that satisfies every field invariant is packed into a
non-nil frame of exactly ten bytes whose bytes 0, 1, 3, 4, 6, 7, 8, 9 are
8, 0, day of month, month, body weight, body height, resting heart rate and
maximal heart rate. -/
theorem Pack_frame_layout (u : UserInfo) (h : u.Valid) :
    ∃ data, u.Pack.ret = some data ∧ data.length = 10 ∧
      data[0]? = some 8 ∧ data[1]? = some 0 ∧
      data[3]? = some u.Birthday.day ∧ data[4]? = some u.Birthday.month ∧
      data[6]? = some u.BodyWeight ∧ data[7]? = some u.BodyHeight ∧
      data[8]? = some u.ResetHR ∧ data[9]? = some u.MaxHR := by
  rw [Pack_of_valid u h]
  exact ⟨_, rfl, rfl, rfl, rfl, rfl, rfl, rfl, rfl, rfl, rfl⟩

theorem Pack_frame_layout_witness :
    sampleUser.Valid ∧ ∃ data, sampleUser.Pack.ret = some data ∧ data.length = 10 ∧
      data[0]? = some 8 ∧ data[1]? = some 0 ∧
      data[3]? = some sampleUser.Birthday.day ∧ data[4]? = some sampleUser.Birthday.month ∧
      data[6]? = some sampleUser.BodyWeight ∧ data[7]? = some sampleUser.BodyHeight ∧
      data[8]? = some sampleUser.ResetHR ∧ data[9]? = some sampleUser.MaxHR :=
  ⟨by decide, Pack_frame_layout sampleUser (by decide)⟩

/-- C3: for a valid record, byte 2 of the frame is the bitmask of the eight
boolean fields: the flag constants are the powers of two 1, 2, ..., 128 in
the order Gender, UnitType, HRDisplayType, DisplayOrientation, WODisplayMode,
ADLGoalCal, WORecording, HRAutoAdj; the byte is the weighted sum of the
fields, it is below 256, and its bit i is set exactly when the i-th field
is 1. -/
theorem Pack_flags_bitmask (u : UserInfo) (h : u.Valid) :
    [FLAG_GENDER, FLAG_UNIT_TYPE, FLAG_DISPLAY_TYPE_HR, FLAG_DISPLAY_ORIENTATION,
      FLAG_DISPLAY_MODE_WO, FLAG_GOAL_ADL, FLAG_RECORDING_WO, FLAG_ADJ_HR]
      = [1, 2, 4, 8, 16, 32, 64, 128] ∧
    ∃ data b, u.Pack.ret = some data ∧ data[2]? = some b ∧
      b = u.Gender * 1 + u.UnitType * 2 + u.HRDisplayType * 4 + u.DisplayOrientation * 8 +
        u.WODisplayMode * 16 + u.ADLGoalCal * 32 + u.WORecording * 64 + u.HRAutoAdj * 128 ∧
      b < 256 ∧
      ∀ i, i < 8 → (b.testBit i = true ↔ u.boolFields[i]? = some 1) := by
  refine ⟨by decide, ?_⟩
  rw [Pack_of_valid u h]
  refine ⟨_, u.flags, rfl, rfl, flags_eq_sum u h, ?_, ?_⟩
  · rw [flags_eq_sum u h]
    obtain ⟨h1, h2, h3, h4, h5, h6, h7, h8, -⟩ := h
    omega
  · rw [flags_eq_sum u h]
    obtain ⟨h1, h2, h3, h4, h5, h6, h7, h8, -⟩ := h
    intro i hi
    exact bits_of_sum _ _ _ _ _ _ _ _ i (by omega) (by omega) (by omega) (by omega)
      (by omega) (by omega) (by omega) (by omega) hi

theorem Pack_flags_bitmask_witness :
    sampleUser.Valid ∧
    ([FLAG_GENDER, FLAG_UNIT_TYPE, FLAG_DISPLAY_TYPE_HR, FLAG_DISPLAY_ORIENTATION,
      FLAG_DISPLAY_MODE_WO, FLAG_GOAL_ADL, FLAG_RECORDING_WO, FLAG_ADJ_HR]
      = [1, 2, 4, 8, 16, 32, 64, 128] ∧
    ∃ data b, sampleUser.Pack.ret = some data ∧ data[2]? = some b ∧
      b = sampleUser.Gender * 1 + sampleUser.UnitType * 2 + sampleUser.HRDisplayType * 4 +
        sampleUser.DisplayOrientation * 8 + sampleUser.WODisplayMode * 16 +
        sampleUser.ADLGoalCal * 32 + sampleUser.WORecording * 64 + sampleUser.HRAutoAdj * 128 ∧
      b < 256 ∧
      ∀ i, i < 8 → (b.testBit i = true ↔ sampleUser.boolFields[i]? = some 1)) :=
  ⟨by decide, Pack_flags_bitmask sampleUser (by decide)⟩

/-- C4: for a valid record with any integer year of birth y, byte 5 of the
frame is y mod 256 (the non-negative remainder, below 256); year 1990 is
sent as 198; and a second valid record that differs at most in a year of
birth congruent modulo 256 is packed into the identical frame. -/
theorem Pack_year_low_byte (u : UserInfo) (h : u.Valid) :
    (∃ (data : List Nat) (b : Nat), u.Pack.ret = some data ∧ data[5]? = some b ∧
      (b : Int) = u.Birthday.Year % 256 ∧ b < 256) ∧
    byteOfInt 1990 = 198 ∧
    ∀ v : UserInfo, v.Valid → u.agreeExceptYear v →
      u.Birthday.Year % 256 = v.Birthday.Year % 256 → v.Pack = u.Pack := by
  refine ⟨?_, by decide, ?_⟩
  · rw [Pack_of_valid u h]
    refine ⟨_, byteOfInt u.Birthday.year, rfl, rfl, ?_, byteOfInt_lt _⟩
    unfold byteOfInt Time.Year
    omega
  · intro v hv hag hy
    obtain ⟨a1, a2, a3, a4, a5, a6, a7, a8, a9, a10, a11, a12, a13, a14⟩ := hag
    rw [Pack_of_valid u h, Pack_of_valid v hv]
    have hf : v.flags = u.flags := by
      unfold UserInfo.flags
      rw [a1, a2, a3, a4, a5, a6, a7, a8]
    have hb : byteOfInt v.Birthday.year = byteOfInt u.Birthday.year := by
      unfold byteOfInt
      unfold Time.Year at hy
      rw [hy]
    rw [hf, hb, a9, a10, a11, a12, a13, a14]

theorem Pack_year_low_byte_witness :
    sampleUser.Valid ∧
    ((∃ (data : List Nat) (b : Nat), sampleUser.Pack.ret = some data ∧ data[5]? = some b ∧
      (b : Int) = sampleUser.Birthday.Year % 256 ∧ b < 256) ∧
    byteOfInt 1990 = 198 ∧
    ∀ v : UserInfo, v.Valid → sampleUser.agreeExceptYear v →
      sampleUser.Birthday.Year % 256 = v.Birthday.Year % 256 → v.Pack = sampleUser.Pack) :=
  ⟨by decide, Pack_year_low_byte sampleUser (by decide)⟩

/-- C5: some function on frames recovers, from the frame of every valid
record, the eight boolean fields, the day and month of birth, the year of
birth modulo 256, body weight, body height, resting and maximal heart rate;
and two valid records with equal frames agree on all of these. -/
theorem Pack_determines_fields :
    (∃ d : List Nat → List Nat, ∀ u : UserInfo, u.Valid →
      ∃ data, u.Pack.ret = some data ∧ data.length = 10 ∧
        d data = u.boolFields ++ [u.Birthday.day, u.Birthday.month,
          (u.Birthday.Year % 256).toNat, u.BodyWeight, u.BodyHeight, u.ResetHR, u.MaxHR]) ∧
    (∀ u v : UserInfo, u.Valid → v.Valid → u.Pack.ret = v.Pack.ret →
      u.agreeExceptYear v ∧ u.Birthday.Year % 256 = v.Birthday.Year % 256) := by
  constructor
  · refine ⟨fun data =>
      [data.getD 2 0 % 2, data.getD 2 0 / 2 % 2, data.getD 2 0 / 4 % 2, data.getD 2 0 / 8 % 2,
       data.getD 2 0 / 16 % 2, data.getD 2 0 / 32 % 2, data.getD 2 0 / 64 % 2,
       data.getD 2 0 / 128 % 2] ++ data.drop 3, ?_⟩
    intro u h
    rw [Pack_of_valid u h]
    refine ⟨_, rfl, rfl, ?_⟩
    have hs := flags_eq_sum u h
    obtain ⟨h1, h2, h3, h4, h5, h6, h7, h8, -⟩ := h
    simp only [List.getD_cons_succ, List.getD_cons_zero, List.drop_succ_cons, List.drop_zero,
      UserInfo.boolFields, byteOfInt, Time.Year, List.cons_append, List.nil_append]
    rw [hs]
    simp only [List.cons.injEq, and_true]
    refine ⟨?_, ?_, ?_, ?_, ?_, ?_, ?_, ?_⟩ <;> omega
  · intro u v hu hv he
    rw [Pack_of_valid u hu, Pack_of_valid v hv] at he
    simp only [Option.some.injEq, List.cons.injEq, and_true, true_and] at he
    obtain ⟨hf, hd, hm, hy, hw, hh, hr, hx⟩ := he
    rw [flags_eq_sum u hu, flags_eq_sum v hv] at hf
    obtain ⟨h1, h2, h3, h4, h5, h6, h7, h8, -⟩ := hu
    obtain ⟨k1, k2, k3, k4, k5, k6, k7, k8, -⟩ := hv
    unfold byteOfInt at hy
    unfold Time.Year
    refine ⟨⟨?_, ?_, ?_, ?_, ?_, ?_, ?_, ?_, hd, hm, hw, hh, hr, hx⟩, ?_⟩ <;> omega

theorem Pack_determines_fields_witness :
    sampleUser.Valid ∧ laterUser.Valid ∧ sampleUser.Pack.ret = laterUser.Pack.ret ∧
    sampleUser.agreeExceptYear laterUser ∧
    sampleUser.Birthday.Year % 256 = laterUser.Birthday.Year % 256 :=
  ⟨by decide, by decide, by decide,
    Pack_determines_fields.2 sampleUser laterUser (by decide) (by decide) (by decide)⟩

theorem violatedFields_iff (u : UserInfo) (name : String) (ts : List Tag) (v : Nat)
    (hts : ∀ ts', (name, ts') ∈ UserInfo.tags ↔ ts' = ts) (hv : u.field name = some v) :
    name ∈ violatedFields u ↔ ¬ ∀ t ∈ ts, Tag.passes u v t = true := by
  rw [mem_violatedFields]
  constructor
  · rintro ⟨ts', v', hmem, hv', hn⟩
    rw [hts] at hmem
    rw [hv] at hv'
    cases hv'
    subst hmem
    exact hn
  · intro hn
    exact ⟨ts, v, (hts ts).2 rfl, hv, hn⟩

theorem violatedFields_sublist (u : UserInfo) :
    (violatedFields u).Sublist (UserInfo.tags.map Prod.fst) := by
  unfold violatedFields validateStruct
  induction UserInfo.tags with
  | nil => simp
  | cons a l ih =>
    rw [List.filterMap_cons]
    cases hv : u.field a.1 with
    | none => simpa using ih.cons a.1
    | some v =>
      cases he : validateField u a.1 v a.2 with
      | none => simpa [he] using ih.cons a.1
      | some e =>
        have hf := validateField_field u a.1 v a.2 e he
        simp only [he, List.map_cons, hf]
        exact ih.cons₂ a.1

/-- C2, as the code has it: a record that breaks some field invariant
(resting heart rate not below the maximal one, or a field outside its range)
makes `Pack` return nil, so no byte of a frame, and log exactly one line with
the validator's error; that error is not empty, names only tagged fields,
names no field twice, and names a field exactly when that field breaks its
invariant. -/
theorem Pack_invalid_returns_nil (u : UserInfo) (h : ¬ u.Valid) :
    u.Pack.ret = none ∧ u.Pack.logged = [validateStruct u] ∧ validateStruct u ≠ [] ∧
    (violatedFields u).Sublist
      ["Gender", "UnitType", "HRDisplayType", "DisplayOrientation", "WODisplayMode",
       "ADLGoalCal", "WORecording", "HRAutoAdj", "BodyWeight", "BodyHeight", "ResetHR",
       "MaxHR"] ∧
    (violatedFields u).Nodup ∧
    ("Gender" ∈ violatedFields u ↔ 1 < u.Gender) ∧
    ("UnitType" ∈ violatedFields u ↔ 1 < u.UnitType) ∧
    ("HRDisplayType" ∈ violatedFields u ↔ 1 < u.HRDisplayType) ∧
    ("DisplayOrientation" ∈ violatedFields u ↔ 1 < u.DisplayOrientation) ∧
    ("WODisplayMode" ∈ violatedFields u ↔ 1 < u.WODisplayMode) ∧
    ("ADLGoalCal" ∈ violatedFields u ↔ 1 < u.ADLGoalCal) ∧
    ("WORecording" ∈ violatedFields u ↔ 1 < u.WORecording) ∧
    ("HRAutoAdj" ∈ violatedFields u ↔ 1 < u.HRAutoAdj) ∧
    ("BodyWeight" ∈ violatedFields u ↔ u.BodyWeight < 20 ∨ 200 < u.BodyWeight) ∧
    ("BodyHeight" ∈ violatedFields u ↔ u.BodyHeight < 69 ∨ 231 < u.BodyHeight) ∧
    ("ResetHR" ∈ violatedFields u ↔
      u.ResetHR < 30 ∨ 140 < u.ResetHR ∨ u.MaxHR ≤ u.ResetHR) ∧
    ("MaxHR" ∈ violatedFields u ↔ u.MaxHR < 80 ∨ 220 < u.MaxHR) := by
  have hne : validateStruct u ≠ [] := fun he => h ((validateStruct_nil_iff u).1 he)
  rw [Pack_of_not_valid u h]
  refine ⟨rfl, rfl, hne, violatedFields_sublist u,
    (violatedFields_sublist u).nodup (by decide), ?_, ?_, ?_, ?_, ?_, ?_, ?_, ?_, ?_, ?_, ?_, ?_⟩
  · rw [violatedFields_iff u "Gender" [.min 0, .max 1] u.Gender
      (by intro ts; simp [UserInfo.tags]) rfl]
    simp [Tag.passes]
  · rw [violatedFields_iff u "UnitType" [.min 0, .max 1] u.UnitType
      (by intro ts; simp [UserInfo.tags]) rfl]
    simp [Tag.passes]
  · rw [violatedFields_iff u "HRDisplayType" [.min 0, .max 1] u.HRDisplayType
      (by intro ts; simp [UserInfo.tags]) rfl]
    simp [Tag.passes]
  · rw [violatedFields_iff u "DisplayOrientation" [.min 0, .max 1] u.DisplayOrientation
      (by intro ts; simp [UserInfo.tags]) rfl]
    simp [Tag.passes]
  · rw [violatedFields_iff u "WODisplayMode" [.min 0, .max 1] u.WODisplayMode
      (by intro ts; simp [UserInfo.tags]) rfl]
    simp [Tag.passes]
  · rw [violatedFields_iff u "ADLGoalCal" [.min 0, .max 1] u.ADLGoalCal
      (by intro ts; simp [UserInfo.tags]) rfl]
    simp [Tag.passes]
  · rw [violatedFields_iff u "WORecording" [.min 0, .max 1] u.WORecording
      (by intro ts; simp [UserInfo.tags]) rfl]
    simp [Tag.passes]
  · rw [violatedFields_iff u "HRAutoAdj" [.min 0, .max 1] u.HRAutoAdj
      (by intro ts; simp [UserInfo.tags]) rfl]
    simp [Tag.passes]
  · rw [violatedFields_iff u "BodyWeight" [.min 20, .max 200] u.BodyWeight
      (by intro ts; simp [UserInfo.tags]) rfl]
    simp [Tag.passes]
    omega
  · rw [violatedFields_iff u "BodyHeight" [.min 69, .max 231] u.BodyHeight
      (by intro ts; simp [UserInfo.tags]) rfl]
    simp [Tag.passes]
    omega
  · rw [violatedFields_iff u "ResetHR" [.min 30, .max 140, .ltfield "MaxHR"] u.ResetHR
      (by intro ts; simp [UserInfo.tags]) rfl]
    simp [Tag.passes, UserInfo.field]
    omega
  · rw [violatedFields_iff u "MaxHR" [.min 80, .max 220] u.MaxHR
      (by intro ts; simp [UserInfo.tags]) rfl]
    simp [Tag.passes]
    omega

theorem Pack_invalid_returns_nil_witness :
    ¬ heavyUser.Valid ∧ heavyUser.Pack.ret = none ∧
    heavyUser.Pack.logged = [validateStruct heavyUser] ∧
    ("BodyWeight" ∈ violatedFields heavyUser ↔
      heavyUser.BodyWeight < 20 ∨ 200 < heavyUser.BodyWeight) :=
  have h := Pack_invalid_returns_nil heavyUser (by decide)
  ⟨by decide, h.1, h.2.1, h.2.2.2.2.2.2.2.2.2.2.2.2.2.1⟩

/-- C2 fails as stated: `Pack` hands back only a nil pointer. The records
`heavyUser` (body weight 250) and `fastUser` (resting rate 100, maximal rate
90) are both rejected, with different violated fields, and `Pack` returns the
same value for both; so no reading of the returned value lists the violated
fields. -/
theorem Pack_return_has_no_field_list :
    ¬ heavyUser.Valid ∧ ¬ fastUser.Valid ∧
    violatedFields heavyUser = ["BodyWeight"] ∧ violatedFields fastUser = ["ResetHR"] ∧
    heavyUser.Pack.ret = none ∧ fastUser.Pack.ret = none ∧
    ¬ ∃ listed : Option (List Nat) → List String,
        listed heavyUser.Pack.ret = violatedFields heavyUser ∧
        listed fastUser.Pack.ret = violatedFields fastUser := by
  refine ⟨by decide, by decide, by decide, by decide, by decide, by decide, ?_⟩
  rintro ⟨listed, h1, h2⟩
  have e1 : heavyUser.Pack.ret = none := by decide
  have e2 : fastUser.Pack.ret = none := by decide
  have v1 : violatedFields heavyUser = ["BodyWeight"] := by decide
  have v2 : violatedFields fastUser = ["ResetHR"] := by decide
  rw [e1, v1] at h1
  rw [e2, v2, h1] at h2
  exact absurd h2 (by decide)

/-! ### Session handlers -/

theorem getServiceById_missing (p : Peripheral) (serviceId : Gid) (name : String) (w : World)
    (h : serviceMissing p serviceId) :
    getServiceById p serviceId name w =
      (.fatal (name ++ " service not found"),
        ⟨w.trace ++ [.DiscoverServices serviceId.asUUID], w.doneClosed⟩) := by
  unfold serviceMissing at h
  have h2 : (p.DiscoverServices serviceId.asUUID).2 ≠ none ∨
      (p.DiscoverServices serviceId.asUUID).1.length = 0 := by
    rcases h with h | h
    · exact Or.inl h
    · exact Or.inr (by rw [h]; rfl)
  simp only [getServiceById, bind, Run.bind, emit]
  rw [if_pos h2]
  rfl

theorem getServiceById_found (p : Peripheral) (serviceId : Gid) (name : String) (w : World)
    (h : ¬ serviceMissing p serviceId) :
    ∃ s rest, (p.DiscoverServices serviceId.asUUID).1 = s :: rest ∧
      getServiceById p serviceId name w =
        (.ok s, ⟨w.trace ++ [.DiscoverServices serviceId.asUUID], w.doneClosed⟩) := by
  unfold serviceMissing at h
  rcases hs : (p.DiscoverServices serviceId.asUUID).1 with _ | ⟨s, rest⟩
  · exact absurd (Or.inr hs) h
  · refine ⟨s, rest, rfl, ?_⟩
    have h2 : ¬ ((p.DiscoverServices serviceId.asUUID).2 ≠ none ∨
        (p.DiscoverServices serviceId.asUUID).1.length = 0) := by
      rintro (h2 | h2)
      · exact h (Or.inl h2)
      · rw [hs] at h2
        simp at h2
    simp only [getServiceById, bind, Run.bind, emit]
    rw [if_neg h2]
    simp [index, hs]

theorem checkBatteryLevel_service_missing (p : Peripheral) (w : World)
    (h : serviceMissing p SERVICE_BATTERY) :
    checkBatteryLevel p w =
      (.fatal "Battery service not found",
        ⟨w.trace ++ [.DiscoverServices SERVICE_BATTERY.asUUID], w.doneClosed⟩) := by
  have e := getServiceById_missing p SERVICE_BATTERY "Battery" w h
  simp only [checkBatteryLevel, bind, Run.bind, e]
  rfl

theorem checkBatteryLevel_characteristic_missing (p : Peripheral) (w : World)
    (s : Service) (rest : List Service)
    (hs : ¬ serviceMissing p SERVICE_BATTERY)
    (hfirst : (p.DiscoverServices SERVICE_BATTERY.asUUID).1 = s :: rest)
    (hc : characteristicMissing p s) :
    checkBatteryLevel p w =
      (.fatal "Failed to discover battery characteristics, err: %s\n",
        ⟨w.trace ++ [.DiscoverServices SERVICE_BATTERY.asUUID, .log (.batteryFound s.uuid),
          .DiscoverCharacteristics CHAR_BATTERY.asUUID s], w.doneClosed⟩) := by
  obtain ⟨s', rest', hfirst', e⟩ := getServiceById_found p SERVICE_BATTERY "Battery" w hs
  rw [hfirst] at hfirst'
  cases hfirst'
  unfold characteristicMissing at hc
  have h2 : (p.DiscoverCharacteristics CHAR_BATTERY.asUUID s).2 ≠ none ∨
      (p.DiscoverCharacteristics CHAR_BATTERY.asUUID s).1.length = 0 := by
    rcases hc with h | h
    · exact Or.inl h
    · exact Or.inr (by rw [h]; rfl)
  simp only [checkBatteryLevel, bind, Run.bind, e, emit]
  rw [if_pos h2]
  simp [logFatal]

theorem checkBatteryLevel_read_empty (p : Peripheral) (w : World)
    (s : Service) (srest : List Service) (c : Characteristic) (crest : List Characteristic)
    (err : Option String)
    (hS : p.DiscoverServices SERVICE_BATTERY.asUUID = (s :: srest, none))
    (hC : p.DiscoverCharacteristics CHAR_BATTERY.asUUID s = (c :: crest, none))
    (hR : p.ReadCharacteristic c = ([], err)) :
    checkBatteryLevel p w =
      (.panicked "index out of range", ⟨w.trace ++ readSteps s c err, w.doneClosed⟩) := by
  cases err <;>
    simp [checkBatteryLevel, getServiceById, bind, Run.bind, emit, index, hS, hC, hR,
      readSteps, logFatal, Run.pure, pure]

theorem checkBatteryLevel_read_nonempty (p : Peripheral) (w : World)
    (s : Service) (srest : List Service) (c : Characteristic) (crest : List Characteristic)
    (v : Nat) (vrest : List Nat) (err : Option String)
    (hS : p.DiscoverServices SERVICE_BATTERY.asUUID = (s :: srest, none))
    (hC : p.DiscoverCharacteristics CHAR_BATTERY.asUUID s = (c :: crest, none))
    (hR : p.ReadCharacteristic c = (v :: vrest, err)) :
    ∃ tail, (checkBatteryLevel p w).2.trace =
        w.trace ++ readSteps s c err ++ [.log (.batteryLevel v)] ++
          (if c.props &&& (CharNotify ||| CharIndicate) ≠ 0 then [.SetNotifyValue c] else []) ++
          tail ∧
      (tail = [] ∨ tail = [.closeDone]) := by
  by_cases hn : c.props &&& (CharNotify ||| CharIndicate) ≠ 0
  · cases hsub : p.SetNotifyValue c <;> cases hd : w.doneClosed <;> cases err <;>
      simp [checkBatteryLevel, getServiceById, bind, Run.bind, emit, index, hS, hC, hR,
        readSteps, logFatal, Run.pure, pure, hn, hsub, closeDone, hd]
  · have hz : c.props &&& (CharNotify ||| CharIndicate) = 0 := not_not.mp hn
    cases hd : w.doneClosed <;> cases err <;>
      simp [checkBatteryLevel, getServiceById, bind, Run.bind, emit, index, hS, hC, hR,
        readSteps, logFatal, Run.pure, pure, hz, closeDone, hd]

theorem onPeriphDisconnected_after_close (p : Peripheral) (w : World)
    (h : w.doneClosed = true) :
    (onPeriphDisconnected p w).1 = .panicked "close of closed channel" := by
  simp [onPeriphDisconnected, bind, Run.bind, emit, closeDone, h]

/-- C6: whatever the configured identifier `c` and the advertising peripheral
`p`, the handler returns normally and leaves `done` alone; when the two
identifiers are equal after upper-casing, its transport calls are exactly
`StopScanning` followed by `Connect p`; when they are not, it does nothing at
all. So scanning is stopped and a connection requested exactly on a match.
With identifier "aa:bb", the advertisement of "AA:BB" is accepted and that of
"11:22" is ignored. -/
theorem onPeriphDiscovered_connects_iff_match (ToUpper : String → String) (c : String)
    (p : Peripheral) (a : Advertisement) (rssi : Int) (w : World) :
    ((onPeriphDiscovered ToUpper c p a rssi w).1 = .ok () ∧
     (onPeriphDiscovered ToUpper c p a rssi w).2.doneClosed = w.doneClosed ∧
     ∃ new, (onPeriphDiscovered ToUpper c p a rssi w).2.trace = w.trace ++ new ∧
       (ToUpper p.ID = ToUpper c →
         new.filter Effect.isTransport = [.StopScanning, .Connect p.ID]) ∧
       (ToUpper p.ID ≠ ToUpper c → new = []) ∧
       ((.StopScanning ∈ new ∧ .Connect p.ID ∈ new) ↔ ToUpper p.ID = ToUpper c)) ∧
    ((onPeriphDiscovered ToUpperASCII "aa:bb" (peripheralWithID "AA:BB")
        sampleAdvertisement 0 World.init).2.trace.filter Effect.isTransport
        = [.StopScanning, .Connect "AA:BB"] ∧
     (onPeriphDiscovered ToUpperASCII "aa:bb" (peripheralWithID "11:22")
        sampleAdvertisement 0 World.init) = (.ok (), World.init)) := by
  refine ⟨?_, by decide, by decide⟩
  by_cases hm : ToUpper p.ID = ToUpper c
  · by_cases hn : p.Name.length > 0
    · refine ⟨?_, ?_, [.StopScanning, .log (.deviceFound (some p.Name)),
        .log (.localName a.LocalName), .log (.txPowerLevel a.TxPowerLevel),
        .log (.manufacturerData a.ManufacturerData), .log (.serviceData a.ServiceData),
        .Connect p.ID], ?_, ?_, ?_, ?_⟩ <;>
      simp [onPeriphDiscovered, hm, hn, bind, Run.bind, emit, Effect.isTransport]
    · refine ⟨?_, ?_, [.StopScanning, .log (.deviceFound none),
        .log (.localName a.LocalName), .log (.txPowerLevel a.TxPowerLevel),
        .log (.manufacturerData a.ManufacturerData), .log (.serviceData a.ServiceData),
        .Connect p.ID], ?_, ?_, ?_, ?_⟩ <;>
      simp [onPeriphDiscovered, hm, hn, bind, Run.bind, emit, Effect.isTransport]
  · refine ⟨?_, ?_, [], ?_, ?_, ?_, ?_⟩ <;>
      simp [onPeriphDiscovered, hm, pure, Run.pure]

/-- C9: `getServiceById` ends in `log.Fatal` exactly when service discovery
answers an error or an empty list, and otherwise returns the first service;
either way it has called discovery once and nothing else. When the battery
service is missing, `checkBatteryLevel` (and `onPeriphConnected` around it)
ends fatally after that one discovery; when the service is found and the
characteristic discovery answers an error or an empty list, it ends fatally
right after the characteristic discovery. In both cases no read, no
subscription, no `close(done)` and no `CancelConnection` follow. -/
theorem missing_service_or_characteristic_is_fatal (p : Peripheral) (serviceId : Gid)
    (name : String) (w : World) :
    ((∃ msg, (getServiceById p serviceId name w).1 = .fatal msg) ↔
      serviceMissing p serviceId) ∧
    (¬ serviceMissing p serviceId →
      ∃ s, (p.DiscoverServices serviceId.asUUID).1.head? = some s ∧
        (getServiceById p serviceId name w).1 = .ok s) ∧
    (getServiceById p serviceId name w).2 =
      ⟨w.trace ++ [.DiscoverServices serviceId.asUUID], w.doneClosed⟩ ∧
    (serviceMissing p SERVICE_BATTERY →
      checkBatteryLevel p w =
        (.fatal "Battery service not found",
          ⟨w.trace ++ [.DiscoverServices SERVICE_BATTERY.asUUID], w.doneClosed⟩) ∧
      onPeriphConnected p w =
        (.fatal "Battery service not found",
          ⟨w.trace ++ [.log .connectionOk, .DiscoverServices SERVICE_BATTERY.asUUID],
            w.doneClosed⟩)) ∧
    (∀ s, ¬ serviceMissing p SERVICE_BATTERY →
      (p.DiscoverServices SERVICE_BATTERY.asUUID).1.head? = some s →
      characteristicMissing p s →
      checkBatteryLevel p w =
        (.fatal "Failed to discover battery characteristics, err: %s\n",
          ⟨w.trace ++ [.DiscoverServices SERVICE_BATTERY.asUUID, .log (.batteryFound s.uuid),
            .DiscoverCharacteristics CHAR_BATTERY.asUUID s], w.doneClosed⟩) ∧
      onPeriphConnected p w =
        (.fatal "Failed to discover battery characteristics, err: %s\n",
          ⟨w.trace ++ [.log .connectionOk, .DiscoverServices SERVICE_BATTERY.asUUID,
            .log (.batteryFound s.uuid), .DiscoverCharacteristics CHAR_BATTERY.asUUID s],
            w.doneClosed⟩)) := by
  refine ⟨?_, ?_, ?_, ?_, ?_⟩
  · constructor
    · rintro ⟨msg, hmsg⟩
      by_contra hnot
      obtain ⟨s, rest, -, e⟩ := getServiceById_found p serviceId name w hnot
      rw [e] at hmsg
      cases hmsg
    · intro h
      exact ⟨_, by rw [getServiceById_missing p serviceId name w h]⟩
  · intro h
    obtain ⟨s, rest, hfirst, e⟩ := getServiceById_found p serviceId name w h
    exact ⟨s, by rw [hfirst]; rfl, by rw [e]⟩
  · by_cases h : serviceMissing p serviceId
    · rw [getServiceById_missing p serviceId name w h]
    · obtain ⟨s, rest, -, e⟩ := getServiceById_found p serviceId name w h
      rw [e]
  · intro h
    refine ⟨checkBatteryLevel_service_missing p w h, ?_⟩
    have e := checkBatteryLevel_service_missing p
      ⟨w.trace ++ [.log .connectionOk], w.doneClosed⟩ h
    simp [onPeriphConnected, bind, Run.bind, emit, withDefer, e]
  · intro s hs hhead hc
    rcases hl : (p.DiscoverServices SERVICE_BATTERY.asUUID).1 with _ | ⟨s', rest⟩
    · rw [hl] at hhead
      cases hhead
    · rw [hl] at hhead
      cases hhead
      refine ⟨checkBatteryLevel_characteristic_missing p w s rest hs hl hc, ?_⟩
      have e := checkBatteryLevel_characteristic_missing p
        ⟨w.trace ++ [.log .connectionOk], w.doneClosed⟩ s rest hs hl hc
      simp [onPeriphConnected, bind, Run.bind, emit, withDefer, e]

theorem missing_service_or_characteristic_is_fatal_witness :
    serviceMissing noServicePeripheral SERVICE_BATTERY ∧
    onPeriphConnected noServicePeripheral World.init =
      (.fatal "Battery service not found",
        ⟨[.log .connectionOk, .DiscoverServices SERVICE_BATTERY.asUUID], false⟩) ∧
    ¬ serviceMissing noCharacteristicPeripheral SERVICE_BATTERY ∧
    characteristicMissing noCharacteristicPeripheral ⟨0x180F⟩ ∧
    onPeriphConnected noCharacteristicPeripheral World.init =
      (.fatal "Failed to discover battery characteristics, err: %s\n",
        ⟨[.log .connectionOk, .DiscoverServices SERVICE_BATTERY.asUUID,
          .log (.batteryFound 0x180F),
          .DiscoverCharacteristics CHAR_BATTERY.asUUID ⟨0x180F⟩], false⟩) :=
  have hm : serviceMissing noServicePeripheral SERVICE_BATTERY := Or.inr rfl
  have hs : ¬ serviceMissing noCharacteristicPeripheral SERVICE_BATTERY := by
    unfold serviceMissing; decide
  have hc : characteristicMissing noCharacteristicPeripheral ⟨0x180F⟩ := Or.inr rfl
  ⟨hm,
   ((missing_service_or_characteristic_is_fatal noServicePeripheral SERVICE_BATTERY
      "Battery" World.init).2.2.2.1 hm).2,
   hs, hc,
   ((missing_service_or_characteristic_is_fatal noCharacteristicPeripheral SERVICE_BATTERY
      "Battery" World.init).2.2.2.2 ⟨0x180F⟩ hs rfl hc).2⟩

/-- C7, evaluated on the code: with the battery service and a characteristic
found, a one-shot read that answers no byte (with a read error, or without
one) makes `checkBatteryLevel` panic at `val[0]`, the read error having been
logged; the subscription callback panics in the same way at `b[0]` on an
empty value. A value of two bytes raises no error: its first byte is
reported. -/
theorem battery_empty_payload_panics :
    checkBatteryLevel (batteryPeripheral 0x12 [] (some "read failed")) World.init =
      (.panicked "index out of range",
        ⟨[.DiscoverServices [0x180F], .log (.batteryFound 0x180F),
          .DiscoverCharacteristics [0x2A19] ⟨0x180F⟩, .ReadCharacteristic ⟨0x2A19, 0x12⟩,
          .log (.readError "read failed")], false⟩) ∧
    (checkBatteryLevel (batteryPeripheral 0x12 [] none) World.init).1 =
      .panicked "index out of range" ∧
    bnf [] World.init = (.panicked "index out of range", World.init) ∧
    handle (.notified []) World.init = (.panicked "index out of range", World.init) ∧
    bnf [58, 3] World.init = (.ok (), ⟨[.log (.batteryLevel 58)], false⟩) := by
  decide

/-- C8, evaluated on the code: for a battery characteristic that advertises
read and notify (properties 0x12) whose one-shot read answers no byte,
`checkBatteryLevel` performs the read and then panics: no battery level is
reported and no subscription is requested. With a read that answers the byte
58 the same peripheral gets one read, one report and one subscription. -/
theorem battery_empty_read_drops_report_and_subscription :
    (0x12 &&& (CharNotify ||| CharIndicate) ≠ 0) ∧
    checkBatteryLevel (batteryPeripheral 0x12 [] none) World.init =
      (.panicked "index out of range",
        ⟨[.DiscoverServices [0x180F], .log (.batteryFound 0x180F),
          .DiscoverCharacteristics [0x2A19] ⟨0x180F⟩, .ReadCharacteristic ⟨0x2A19, 0x12⟩],
          false⟩) ∧
    checkBatteryLevel (batteryPeripheral 0x12 [58] none) World.init =
      (.ok (),
        ⟨[.DiscoverServices [0x180F], .log (.batteryFound 0x180F),
          .DiscoverCharacteristics [0x2A19] ⟨0x180F⟩, .ReadCharacteristic ⟨0x2A19, 0x12⟩,
          .log (.batteryLevel 58), .SetNotifyValue ⟨0x2A19, 0x12⟩, .closeDone], true⟩) := by
  decide

/-- C10, evaluated on the code: a connected event whose `checkBatteryLevel`
runs to its end closes `done`; the disconnected event that follows the
deferred `CancelConnection` then executes `close(done)` on the closed channel
and panics. Two disconnected events in a row do the same. -/
theorem done_closed_twice :
    (handle (.connected (batteryPeripheral 0x12 [58] none)) World.init).1 = .ok () ∧
    (handle (.connected (batteryPeripheral 0x12 [58] none)) World.init).2.doneClosed = true ∧
    (deliver [.connected (batteryPeripheral 0x12 [58] none),
        .disconnected (batteryPeripheral 0x12 [58] none)] World.init).1 =
      .panicked "close of closed channel" ∧
    (deliver [.disconnected (batteryPeripheral 0x12 [58] none),
        .disconnected (batteryPeripheral 0x12 [58] none)] World.init).1 =
      .panicked "close of closed channel" := by
  decide

end Mio
